import Mathlib

/-
Verification of the DDBoat guidance-and-control core.

Shallow embedding of the repository sources:
  src/ddboat.py            (utility module: geometry, GPS conversion, compass,
                            motors, per-cycle navigation, main loop skeleton)
  src/examples/ddboat.py   (full example: navigation loop with mission control,
                            control law, actuation and cleanup)

Python floats are embedded as exact rationals (or reals where trigonometry is
involved); `int(...)` is truncation toward zero; Python's `%` on floats keeps
the sign of the divisor.  External libraries (pyproj's projection, numpy's
matrix inverse, numpy's arctan2) are passed as explicit function parameters;
theorems about trigonometric pipelines instantiate them with the exact real
functions.
-/

namespace DDBoat

/-- A planar coordinate, from class `Coordinate` in src/ddboat.py (lines 60-63). -/
structure Coordinate (α : Type) where
  x : α
  y : α
deriving DecidableEq

variable {α : Type} [LinearOrderedField α]

/-- Truncation toward zero, the behaviour of Python's `int(...)` on a float. -/
def pyTrunc [FloorRing α] (q : α) : ℤ :=
  if q < 0 then ⌈q⌉ else ⌊q⌋

/-- `float(int(q))`: truncation toward zero, back in the scalar field. -/
def pyIntF [FloorRing α] (q : α) : α :=
  (pyTrunc q : α)

/-- Python's `%` on floats (for a nonzero divisor the result keeps the sign of
the divisor): `x % y = x - y * floor (x / y)`. -/
def pyMod [FloorRing α] (x y : α) : α :=
  x - y * ⌊x / y⌋

/-- `x % 360` with Python float-modulo semantics, used to state the round-trip
law of the heading-error wrap. -/
def fmod360 [FloorRing α] (x : α) : α :=
  pyMod x 360

/-- The heading-error wrap performed at the end of `Coordinate.angle_to`
(src/ddboat.py lines 95-101): `angle_diff = bearing - current_heading`, minus
360 if the difference exceeds 180, plus 360 if it is strictly below -180. -/
def heading_error (bearing current_heading : α) : α :=
  if bearing - current_heading > 180 then bearing - current_heading - 360
  else if bearing - current_heading < -180 then bearing - current_heading + 360
  else bearing - current_heading

/-- The geographic bearing computed inside `Coordinate.angle_to`
(src/ddboat.py lines 88-93): `90 - degrees(atan2(dy, dx))`, plus 360 if
negative.  `atan2deg` is the degree-valued arctangent `degrees(atan2(y, x))`,
passed in because numpy's `arctan2` is an external function. -/
def target_bearing (atan2deg : α → α → α) (self other : Coordinate α) : α :=
  let dx := other.x - self.x
  let dy := other.y - self.y
  let t := 90 - atan2deg dy dx
  if t < 0 then t + 360 else t

/-- `Coordinate.angle_to` (src/ddboat.py lines 77-101): the bearing toward
`other` followed by the heading-error wrap against `current_heading`. -/
def angle_to (atan2deg : α → α → α) (self other : Coordinate α)
    (current_heading : α) : α :=
  heading_error (target_bearing atan2deg self other) current_heading

/-- `Coordinate.distance_to` (src/ddboat.py lines 65-75):
`np.hypot(dx, dy) = sqrt (dx^2 + dy^2)`; the square root is passed in. -/
def distance_to (sqrtF : α → α) (self other : Coordinate α) : α :=
  sqrtF ((self.x - other.x) ^ 2 + (self.y - other.y) ^ 2)

/- ### Claim C1 -/

/-- Claim C1 counterexample: at bearing 0 and heading 180 (both in [0,360)),
the wrap leaves the raw difference -180 unchanged (the code adds 360 only for
differences strictly below -180), so the result is -180, which is not in the
half-open interval (-180, 180]. -/
theorem heading_error_attains_neg180 :
    (0:ℚ) ∈ Set.Ico (0:ℚ) 360 ∧ (180:ℚ) ∈ Set.Ico (0:ℚ) 360 ∧
    heading_error (0:ℚ) 180 = -180 ∧
    heading_error (0:ℚ) 180 ∉ Set.Ioc (-180:ℚ) 180 := by
  refine ⟨⟨le_refl 0, by norm_num⟩, ⟨by norm_num, by norm_num⟩, ?_, ?_⟩
  · norm_num [heading_error]
  · norm_num [heading_error, Set.mem_Ioc]

/-- Claim C1, amended: for every bearing and heading in [0,360), the wrapped
heading error lies in the closed interval [-180, 180]; the endpoint -180 is
attained (when the raw difference is exactly -180) because the code adds 360
only when the difference is strictly below -180. -/
theorem heading_error_range (b h : ℚ) (hb0 : 0 ≤ b) (hb1 : b < 360)
    (hh0 : 0 ≤ h) (hh1 : h < 360) :
    heading_error b h ∈ Set.Icc (-180:ℚ) 180 := by
  unfold heading_error
  split_ifs with h1 h2 <;> rw [Set.mem_Icc] <;> constructor <;> linarith

/-- Concrete instance of `heading_error_range` at bearing 1, heading 359. -/
theorem heading_error_range_witness :
    ((0:ℚ) ≤ 1 ∧ (1:ℚ) < 360 ∧ (0:ℚ) ≤ 359 ∧ (359:ℚ) < 360) ∧
    heading_error (1:ℚ) 359 ∈ Set.Icc (-180:ℚ) 180 :=
  ⟨by norm_num,
   heading_error_range 1 359 (by norm_num) (by norm_num) (by norm_num)
     (by norm_num)⟩

/- ### Claim C2 -/

/-- `fmod360` is the identity on [0, 360) up to integer multiples of 360. -/
lemma fmod360_add_mul (x : ℚ) (h0 : 0 ≤ x) (h1 : x < 360) (k : ℤ) :
    fmod360 (x + 360 * k) = x := by
  unfold fmod360 pyMod
  have hdiv : (x + 360 * (k:ℚ)) / 360 = x / 360 + (k:ℚ) := by
    field_simp
    ring
  rw [hdiv, Int.floor_add_int]
  have hfl : ⌊x / 360⌋ = 0 := by
    rw [Int.floor_eq_zero_iff, Set.mem_Ico]
    constructor
    · positivity
    · rw [div_lt_one (by norm_num : (0:ℚ) < 360)]; exact h1
  rw [hfl]
  push_cast
  ring

/-- Claim C2: round-trip law of the heading-error wrap.  Adding the wrapped
error back to the current heading recovers the bearing modulo 360 (Python
float `%`), and across the 0/360 boundary `heading_error 1 359 = 2` and
`heading_error 359 1 = -2`. -/
theorem heading_error_round_trip (b h : ℚ) (hb0 : 0 ≤ b) (hb1 : b < 360)
    (hh0 : 0 ≤ h) (hh1 : h < 360) :
    fmod360 (h + heading_error b h) = b ∧
    heading_error (1:ℚ) 359 = 2 ∧ heading_error (359:ℚ) 1 = -2 := by
  refine ⟨?_, by norm_num [heading_error], by norm_num [heading_error]⟩
  unfold heading_error
  split_ifs with h1 h2
  · have := fmod360_add_mul b hb0 hb1 (-1)
    rw [show h + (b - h - 360) = b + 360 * ((-1:ℤ):ℚ) by push_cast; ring] at *
    exact this
  · have := fmod360_add_mul b hb0 hb1 1
    rw [show h + (b - h + 360) = b + 360 * ((1:ℤ):ℚ) by push_cast; ring] at *
    exact this
  · have := fmod360_add_mul b hb0 hb1 0
    rw [show h + (b - h) = b + 360 * ((0:ℤ):ℚ) by push_cast; ring] at *
    exact this

/-- Concrete instance of `heading_error_round_trip` at bearing 1, heading
359. -/
theorem heading_error_round_trip_witness :
    ((0:ℚ) ≤ 1 ∧ (1:ℚ) < 360 ∧ (0:ℚ) ≤ 359 ∧ (359:ℚ) < 360) ∧
    (fmod360 ((359:ℚ) + heading_error (1:ℚ) 359) = 1 ∧
      heading_error (1:ℚ) 359 = 2 ∧ heading_error (359:ℚ) 1 = -2) :=
  ⟨by norm_num,
   heading_error_round_trip 1 359 (by norm_num) (by norm_num) (by norm_num)
     (by norm_num)⟩

/- ### GPS GLL record conversion -/

/-- A GPS GLL/RMC record as consumed by the conversion code: raw DDMM.MMMM
latitude, latitude hemisphere marker, raw DDDMM.MMMM longitude, longitude
hemisphere marker (fields 0-3 of `gll_data`). -/
structure GllData where
  ilat : ℚ
  latHem : Char
  ilon : ℚ
  lonHem : Char
deriving DecidableEq

/-- `cvt_gll_ddmm_2_dd` (src/ddboat.py lines 109-131): DDMM.MMMM to decimal
degrees; negates latitude on hemisphere 'S' and longitude on 'W'. -/
def cvt_gll_ddmm_2_dd (g : GllData) : ℚ × ℚ :=
  let olat := pyIntF (g.ilat / 100) + (pyMod g.ilat 100) / 60
  let olon := pyIntF (g.ilon / 100) + (pyMod g.ilon 100) / 60
  (if g.latHem = 'S' then -olat else olat,
   if g.lonHem = 'W' then -olon else olon)

/-- The inline DDMM-to-decimal-degrees conversion inside `navigation`
(src/ddboat.py lines 300-304): same arithmetic as `cvt_gll_ddmm_2_dd` for both
coordinates and the same 'W' check for longitude, but with no check of the
latitude hemisphere marker. -/
def navInlineCvt (g : GllData) : ℚ × ℚ :=
  let lat := pyIntF (g.ilat / 100) + (pyMod g.ilat 100) / 60
  let lon := pyIntF (g.ilon / 100) + (pyMod g.ilon 100) / 60
  (lat, if g.lonHem = 'W' then -lon else lon)

/- ### Geo frame conversion -/

/-- `convert_to_utm` (src/ddboat.py lines 161-173): forwards `(lon, lat)` to
the projection (pyproj's `projDegree2Meter`, external, passed as `proj`) and
wraps the result in a `Coordinate`, with no validation of the inputs. -/
def convert_to_utm (proj : α → α → α × α) (lat lon : α) : Coordinate α :=
  ⟨(proj lon lat).1, (proj lon lat).2⟩

/-- The error taxonomy of the spec's Geo Frame Converter (spec section 7);
no counterpart exists anywhere in the repository code. -/
inductive UtmError where
  | InvalidCoordinate
deriving DecidableEq

/-- The run outcome of the Python `convert_to_utm` lifted to `Except`: the
function body is a single projection call and a constructor, so it returns
normally on every input (pyproj with default settings yields values rather
than raising), hence always `Except.ok`. -/
def convert_to_utm_run (proj : α → α → α × α) (lat lon : α) :
    Except UtmError (Coordinate α) :=
  Except.ok (convert_to_utm proj lat lon)

/-- Modelled from the spec: the Geo Frame Converter described in spec section
4.1, which fails with `InvalidCoordinate` when abs lat > 90 or abs lon > 180;
stated only to compare against the code's `convert_to_utm_run`. -/
def convert_to_utm_spec (proj : α → α → α × α) (lat lon : α) :
    Except UtmError (Coordinate α) :=
  if 90 < |lat| ∨ 180 < |lon| then Except.error UtmError.InvalidCoordinate
  else Except.ok (convert_to_utm proj lat lon)

/-- A concrete stand-in projection used only to instantiate counterexamples;
the properties at issue do not depend on the projection's values. -/
def projId : ℚ → ℚ → ℚ × ℚ := fun lon lat => (lon, lat)

/- ### Heading estimation -/

/-- `apply_compass_calibration` (src/ddboat.py lines 202-215): adds the fixed
offset vector `b = (6, 1468, -4455)` to the raw sample and applies the
inverted calibration matrix.  The inverse `A_inv` comes from
`np.linalg.inv` (external numerical code), so it is passed as a function. -/
def apply_compass_calibration (Ainv : α × α × α → α × α × α)
    (mag_raw : α × α × α) : α × α × α :=
  Ainv (mag_raw.1 + 6, mag_raw.2.1 + 1468, mag_raw.2.2 + -4455)

/-- `compute_compass_heading` (src/ddboat.py lines 217-232):
`degrees(atan2(y, x))` of the calibrated vector, plus 360 when negative; the
z component is destructured but unused. -/
def compute_compass_heading (atan2deg : α → α → α) (mag_calib : α × α × α) :
    α :=
  if atan2deg mag_calib.2.1 mag_calib.1 < 0 then
    atan2deg mag_calib.2.1 mag_calib.1 + 360
  else atan2deg mag_calib.2.1 mag_calib.1

/- ### Per-cycle navigation (src/ddboat.py lines 295-331) -/

/-- `navigation` (src/ddboat.py lines 295-331).  When `gll_ok` holds it
converts the fix with the inline DDMM conversion, projects it, reads the
magnetometer, computes the compass heading, and returns
`(current_coord, compass_heading)` (the printed distance and angle do not
flow into the returned value).  When `gll_ok` is false the whole body is
skipped and the trailing `return current_coord, compass_heading` reads two
local variables that were never assigned, raising `UnboundLocalError`;
that exceptional outcome is embedded as `none`. -/
def navigation (proj : ℚ → ℚ → ℚ × ℚ) (Ainv : ℚ × ℚ × ℚ → ℚ × ℚ × ℚ)
    (atan2deg : ℚ → ℚ → ℚ) (gll_ok : Bool) (gll : GllData)
    (mag_raw : ℚ × ℚ × ℚ) : Option (Coordinate ℚ × ℚ) :=
  if gll_ok then
    let latlon := navInlineCvt gll
    let current_coord := convert_to_utm proj latlon.1 latlon.2
    let compass_heading :=
      compute_compass_heading atan2deg (apply_compass_calibration Ainv mag_raw)
    some (current_coord, compass_heading)
  else
    none

/- ### Waypoint sequencer (src/examples/ddboat.py lines 473-481) -/

/-- Mission state of the waypoint sequencer: either a cursor into the
waypoint list (`waypoint_coords_idx` while the loop is running) or the
completed mission (the loop has executed `break`). -/
inductive SeqState where
  | Active (i : ℕ)
  | Complete
deriving DecidableEq

/-- One mission-control step (src/examples/ddboat.py lines 474-481) over a
mission of `n` waypoints with arrival tolerance `tol`
(`acceptable_distance_err`): when the observed distance to the active
waypoint is strictly below the tolerance the cursor is incremented, and the
loop breaks (mission complete) exactly when the incremented cursor equals
`n`; nothing leaves `Complete`. -/
def seqStep (n : ℕ) (tol : ℚ) : SeqState → ℚ → SeqState
  | SeqState.Complete, _ => SeqState.Complete
  | SeqState.Active i, d =>
      if d < tol then
        if i + 1 = n then SeqState.Complete else SeqState.Active (i + 1)
      else SeqState.Active i

/-- The sequencer run from the initial state `Active 0`
(`waypoint_coords_idx = 0`) over a list of per-cycle distance observations. -/
def runSeq (n : ℕ) (tol : ℚ) (ds : List ℚ) : SeqState :=
  ds.foldl (seqStep n tol) (SeqState.Active 0)

/- ### Control law (src/examples/ddboat.py lines 484-509) -/

/-- `np.clip(x, lo, hi)`: clamp into `[lo, hi]`. -/
def npClip (x lo hi : α) : α :=
  min (max x lo) hi

/-- `rot_speed = rot_a * np.fabs(heading) + rot_b`
(src/examples/ddboat.py line 484). -/
def rot_speed (rot_a rot_b heading : α) : α :=
  rot_a * |heading| + rot_b

/-- `F_u = acc_a * distance + acc_b` (src/examples/ddboat.py line 485). -/
def F_u (acc_a acc_b distance : α) : α :=
  acc_a * distance + acc_b

/-- The per-cycle control law and actuator layer (src/examples/ddboat.py
lines 484-509): rotational effort goes entirely to the left side when the
heading error exceeds the tolerance, entirely to the right side when it is
below minus the tolerance; half the forward effort is added to each side;
each side is clamped by `np.clip(_, 50.0, 255.0)` and truncated by `int`. -/
def computeThrust [FloorRing α] (rot_a rot_b acc_a acc_b tol : α)
    (distance heading : α) : ℤ × ℤ :=
  let rot := rot_speed rot_a rot_b heading
  let fu := F_u acc_a acc_b distance
  let F_l : α := if heading > tol then rot else 0
  let F_r : α := if heading > tol then 0 else if heading < -tol then rot else 0
  (pyTrunc (npClip (F_l + fu / 2) 50 255),
   pyTrunc (npClip (F_r + fu / 2) 50 255))

/- ### Main loop models -/

/-- What the main loop observes in one cycle: either an external interruption
(KeyboardInterrupt / SIGINT-raised SystemExit, or any other exception raised
by the body), or a completed navigation cycle summarised by the guidance
outputs it produces — the distance and wrapped heading error to the active
waypoint. -/
inductive CycleEvent where
  | interrupt
  | fix (distance heading : ℚ)

/-- The thrust command issued by one cycle of `main_example` in
src/examples/ddboat.py, with the script's control constants
`rot_a = 0.1, rot_b = 0, acc_a = 2, acc_b = 0, acceptable_heading_err = 20`
(lines 440-444). -/
def thrustCmd (d h : ℚ) : ℤ × ℤ :=
  computeThrust (1/10) 0 2 0 20 d h

/-- The `try`-block loop of `main_example` in src/examples/ddboat.py
(lines 462-528) over a mission of `n` waypoints with arrival tolerance `tol`
(`acceptable_distance_err = 5` in the script), recorded as the list of motor
commands sent to `send_arduino_cmd_motor`.  Per cycle: on a below-tolerance
distance the cursor advances; if it reaches `n` the loop breaks and the
`finally` block issues `stop_motors` (0,0); otherwise `stop_motors` is issued
for the settle pause and the cycle still issues the thrust computed from the
old guidance values.  An interruption leaves the loop and runs the same
`finally` block.  `none` means the event trace ended with the loop still
running. -/
def mainLoop (n : ℕ) (tol : ℚ) :
    ℕ → List CycleEvent → List (ℤ × ℤ) → Option (List (ℤ × ℤ))
  | _, [], _ => none
  | _, CycleEvent.interrupt :: _, log => some (log ++ [(0, 0)])
  | idx, CycleEvent.fix d h :: rest, log =>
      if d < tol then
        if idx + 1 = n then some (log ++ [(0, 0)])
        else mainLoop n tol (idx + 1) rest (log ++ [(0, 0), thrustCmd d h])
      else mainLoop n tol idx rest (log ++ [thrustCmd d h])

/-- The `while True` loop of `main_example` in src/ddboat.py (lines 355-368),
recorded the same way: its body only prints guidance values and sleeps, it
issues no motor command, it has no `break`, and there is no `try`/`finally`
around it (the `stop_motors` call after the loop is commented out), so an
interruption propagates out of `main_example` without any command being
sent. -/
def mainLoopSrc : List CycleEvent → List (ℤ × ℤ) → Option (List (ℤ × ℤ))
  | [], _ => none
  | CycleEvent.interrupt :: _, log => some log
  | CycleEvent.fix _ _ :: rest, log => mainLoopSrc rest log

/- ### Claim C3 -/

/-- Claim C3 (evaluation at the failing input): when the position sensor
reports no valid fix (`gll_ok = false`), `navigation` in src/ddboat.py does
not complete the cycle cleanly — the skipped body leaves `current_coord` and
`compass_heading` unassigned and the trailing `return` raises
`UnboundLocalError`, embedded here as `none`, for every projection,
calibration inverse, arctangent, GLL record and magnetometer sample. -/
theorem navigation_crashes_without_fix (proj : ℚ → ℚ → ℚ × ℚ)
    (Ainv : ℚ × ℚ × ℚ → ℚ × ℚ × ℚ) (atan2deg : ℚ → ℚ → ℚ) (gll : GllData)
    (mag_raw : ℚ × ℚ × ℚ) :
    navigation proj Ainv atan2deg false gll mag_raw = none := rfl

/- ### Claim C4 -/

/-- Every sequencer state reachable by folding observations from a state with
a valid cursor again has a valid cursor. -/
lemma foldl_seqStep_active_lt (n : ℕ) (tol : ℚ) :
    ∀ (ds : List ℚ) (s : SeqState),
      (∀ j, s = SeqState.Active j → j < n) →
      ∀ i, ds.foldl (seqStep n tol) s = SeqState.Active i → i < n := by
  intro ds
  induction ds with
  | nil => intro s hs i hi; exact hs i hi
  | cons d rest ih =>
      intro s hs i hi
      refine ih (seqStep n tol s d) ?_ i hi
      intro j hj
      cases s with
      | Complete => simp [seqStep] at hj
      | Active m =>
          have hm : m < n := hs m rfl
          simp only [seqStep] at hj
          split_ifs at hj with h1 h2 <;>
            simp only [SeqState.Active.injEq, reduceCtorEq] at hj <;>
            omega

/-- Claim C4: waypoint-sequencer invariant.  Over a non-empty mission of `n`
waypoints: `Complete` is absorbing; from `Active i` the cursor stays exactly
when the observed distance is not below the tolerance; a below-tolerance
observation advances the cursor by one while waypoints remain; the state
becomes `Complete` precisely on a below-tolerance observation at the last
index; and every state reachable from `Active 0` that is still `Active i`
has a valid cursor `i < n`. -/
theorem waypoint_sequencer_invariant (n : ℕ) (tol : ℚ) (ds : List ℚ)
    (hn : 1 ≤ n) :
    (∀ d, seqStep n tol SeqState.Complete d = SeqState.Complete) ∧
    (∀ i d,
        seqStep n tol (SeqState.Active i) d = SeqState.Active i ↔ ¬ d < tol) ∧
    (∀ i d, d < tol → i + 1 < n →
        seqStep n tol (SeqState.Active i) d = SeqState.Active (i + 1)) ∧
    (∀ i d, i < n →
        (seqStep n tol (SeqState.Active i) d = SeqState.Complete ↔
          d < tol ∧ i + 1 = n)) ∧
    (∀ i, runSeq n tol ds = SeqState.Active i → i < n) := by
  refine ⟨fun d => rfl, ?_, ?_, ?_, ?_⟩
  · intro i d
    simp only [seqStep]
    split_ifs with h1 h2 <;> simp_all
  · intro i d h1 h2
    simp only [seqStep]
    rw [if_pos h1, if_neg (by omega : ¬ i + 1 = n)]
  · intro i d hi
    simp only [seqStep]
    split_ifs with h1 h2
    · simp [h1, h2]
    · simp [h2]
    · simp [h1]
  · intro i hi
    refine foldl_seqStep_active_lt n tol ds _ ?_ i hi
    intro j hj
    have : 0 = j := by simpa using hj
    omega

/-- Concrete instance of `waypoint_sequencer_invariant`: a 2-waypoint mission
with tolerance 5 and a distance trace crossing the threshold twice. -/
theorem waypoint_sequencer_invariant_witness :
    1 ≤ 2 ∧
    ((∀ d, seqStep 2 5 SeqState.Complete d = SeqState.Complete) ∧
     (∀ i d,
         seqStep 2 5 (SeqState.Active i) d = SeqState.Active i ↔ ¬ d < 5) ∧
     (∀ i d, d < 5 → i + 1 < 2 →
         seqStep 2 5 (SeqState.Active i) d = SeqState.Active (i + 1)) ∧
     (∀ i d, i < 2 →
         (seqStep 2 5 (SeqState.Active i) d = SeqState.Complete ↔
           d < 5 ∧ i + 1 = 2)) ∧
     (∀ i, runSeq 2 5 [7, 3, 9, 2] = SeqState.Active i → i < 2)) :=
  ⟨by norm_num, waypoint_sequencer_invariant 2 5 [7, 3, 9, 2] (by norm_num)⟩

/- ### Claim C5 -/

/-- Claim C5 counterexample: at the out-of-range latitude 100 the code's
`convert_to_utm` does not fail — it returns the projected pair as an ordinary
`Coordinate` — while the spec's converter returns `InvalidCoordinate`. -/
theorem convert_to_utm_out_of_range_ok :
    (90:ℚ) < |(100:ℚ)| ∧
    convert_to_utm_run projId (100:ℚ) 0 = Except.ok ⟨0, 100⟩ ∧
    convert_to_utm_spec projId (100:ℚ) 0 =
      Except.error UtmError.InvalidCoordinate := by
  refine ⟨by norm_num, rfl, ?_⟩
  unfold convert_to_utm_spec
  rw [if_pos]
  left
  norm_num

/-- Claim C5, amended: `convert_to_utm` performs no range validation and has
no failure path — for every input, out-of-range values included, it returns
normally with the raw projection of `(lon, lat)` wrapped as a position. -/
theorem convert_to_utm_never_fails (proj : ℚ → ℚ → ℚ × ℚ) (lat lon : ℚ) :
    convert_to_utm_run proj lat lon ≠
      Except.error UtmError.InvalidCoordinate ∧
    convert_to_utm_run proj lat lon =
      Except.ok ⟨(proj lon lat).1, (proj lon lat).2⟩ :=
  ⟨fun h => Except.noConfusion h, rfl⟩

/- ### Claim C6 -/

/-- Claim C6, amended: in `main_example` of src/examples/ddboat.py every
terminating run of the mission loop — normal completion on the last waypoint
or an interruption/exception on any cycle — ends with the stop command
`(0, 0)` as the last motor command issued, because the `finally` block calls
`stop_motors` on every exit path.  (The skeleton loop of src/ddboat.py,
modelled separately as `mainLoopSrc`, issues no stop: see the
counterexample.) -/
theorem main_loop_exits_with_stop (n : ℕ) (tol : ℚ) :
    ∀ (events : List CycleEvent) (idx : ℕ) (log cmds : List (ℤ × ℤ)),
      mainLoop n tol idx events log = some cmds →
      cmds.getLast? = some (0, 0) := by
  intro events
  induction events with
  | nil => intro idx log cmds h; simp [mainLoop] at h
  | cons e rest ih =>
      intro idx log cmds h
      cases e with
      | interrupt =>
          simp only [mainLoop, Option.some.injEq] at h
          rw [← h]
          exact List.getLast?_concat _
      | fix d hd =>
          simp only [mainLoop] at h
          split_ifs at h with h1 h2
          · simp only [Option.some.injEq] at h
            rw [← h]
            exact List.getLast?_concat _
          · exact ih _ _ _ h
          · exact ih _ _ _ h

/-- Concrete instance of `main_loop_exits_with_stop`: a one-waypoint mission
whose single cycle arrives (distance 3 < tolerance 5); the loop breaks and
the `finally` stop is the only and last command. -/
theorem main_loop_exits_with_stop_witness :
    mainLoop 1 5 0 [CycleEvent.fix 3 0] [] = some [(0, 0)] ∧
    ([((0:ℤ), (0:ℤ))]).getLast? = some (0, 0) :=
  ⟨by decide,
   main_loop_exits_with_stop 1 5 [CycleEvent.fix 3 0] 0 [] [(0, 0)]
     (by decide)⟩

/-- Claim C6 counterexample: the main loop of src/ddboat.py (also cited by
the claim) interrupted on its first cycle returns with an empty command log —
no stop command (and no motor command at all) is issued on that exit path,
since the `stop_motors` call there is commented out and there is no
`try`/`finally`. -/
theorem main_loop_src_no_stop :
    mainLoopSrc [CycleEvent.interrupt] [] = some [] ∧
    ([] : List (ℤ × ℤ)).getLast? ≠ some (0, 0) := by
  constructor
  · rfl
  · simp

/- ### Claim C8 -/

/-- `int(np.clip(x, 50.0, 255.0))` lands in `[50, 255]` for every input. -/
lemma pyTrunc_clip_bounds (x : ℚ) :
    50 ≤ pyTrunc (npClip x 50 255) ∧ pyTrunc (npClip x 50 255) ≤ 255 := by
  have h50 : (50:ℚ) ≤ npClip x 50 255 := by
    unfold npClip
    exact le_min (le_max_right x 50) (by norm_num)
  have h255 : npClip x 50 255 ≤ 255 := min_le_right _ _
  unfold pyTrunc
  rw [if_neg (by linarith : ¬ npClip x 50 255 < 0)]
  constructor
  · exact Int.le_floor.mpr (by exact_mod_cast h50)
  · calc ⌊npClip x 50 255⌋ ≤ ⌊(255:ℚ)⌋ := Int.floor_le_floor h255
      _ = 255 := by
          rw [show (255:ℚ) = ((255:ℤ):ℚ) by norm_cast, Int.floor_intCast]

/-- Claim C8: for every choice of gains and biases, every non-negative
distance and every heading error, both per-side commands produced by the
control law are integers in the actuator range `[50, 255]`. -/
theorem thrust_commands_clamped (rot_a rot_b acc_a acc_b tol d h : ℚ)
    (hd : 0 ≤ d) :
    50 ≤ (computeThrust rot_a rot_b acc_a acc_b tol d h).1 ∧
    (computeThrust rot_a rot_b acc_a acc_b tol d h).1 ≤ 255 ∧
    50 ≤ (computeThrust rot_a rot_b acc_a acc_b tol d h).2 ∧
    (computeThrust rot_a rot_b acc_a acc_b tol d h).2 ≤ 255 := by
  simp only [computeThrust]
  exact ⟨(pyTrunc_clip_bounds _).1, (pyTrunc_clip_bounds _).2,
    (pyTrunc_clip_bounds _).1, (pyTrunc_clip_bounds _).2⟩

/-- Concrete instance of `thrust_commands_clamped` with the script's
constants, distance 3 and heading error 0. -/
theorem thrust_commands_clamped_witness :
    (0:ℚ) ≤ 3 ∧
    (50 ≤ (computeThrust (1/10 : ℚ) 0 2 0 20 3 0).1 ∧
     (computeThrust (1/10 : ℚ) 0 2 0 20 3 0).1 ≤ 255 ∧
     50 ≤ (computeThrust (1/10 : ℚ) 0 2 0 20 3 0).2 ∧
     (computeThrust (1/10 : ℚ) 0 2 0 20 3 0).2 ≤ 255) :=
  ⟨by norm_num, thrust_commands_clamped (1/10) 0 2 0 20 3 0 (by norm_num)⟩

/- ### Claim C10 -/

/-- Claim C10 counterexample: on a southern-hemisphere record the dedicated
converter negates the latitude but the inline conversion in `navigation`
does not — it never consults the latitude hemisphere marker. -/
theorem nav_inline_cvt_drops_south :
    navInlineCvt ⟨1000, 'S', 1000, 'E'⟩ ≠
      cvt_gll_ddmm_2_dd ⟨1000, 'S', 1000, 'E'⟩ ∧
    (navInlineCvt ⟨1000, 'S', 1000, 'E'⟩).1 = 10 ∧
    (cvt_gll_ddmm_2_dd ⟨1000, 'S', 1000, 'E'⟩).1 = -10 := by
  have hfl : ⌊(10:ℚ)⌋ = 10 := by
    rw [show (10:ℚ) = ((10:ℤ):ℚ) by norm_cast]
    exact Int.floor_intCast 10
  have hdiv : (1000:ℚ) / 100 = 10 := by norm_num
  refine ⟨?_, ?_, ?_⟩ <;>
    norm_num [navInlineCvt, cvt_gll_ddmm_2_dd, pyIntF, pyTrunc, pyMod, hdiv,
      hfl, Prod.ext_iff]

/-- Claim C10, amended: the inline conversion inside `navigation` agrees with
`cvt_gll_ddmm_2_dd` on every record whose latitude hemisphere marker is not
'S' (it handles 'W' for the longitude identically, but omits the
southern-latitude negation). -/
theorem nav_inline_cvt_agrees_north (g : GllData) (h : g.latHem ≠ 'S') :
    navInlineCvt g = cvt_gll_ddmm_2_dd g := by
  simp [navInlineCvt, cvt_gll_ddmm_2_dd, h]

/-- Concrete instance of `nav_inline_cvt_agrees_north` on a northern-
hemisphere, western-longitude record. -/
theorem nav_inline_cvt_agrees_north_witness :
    (⟨1000, 'N', 1000, 'W'⟩ : GllData).latHem ≠ 'S' ∧
    navInlineCvt ⟨1000, 'N', 1000, 'W'⟩ =
      cvt_gll_ddmm_2_dd ⟨1000, 'N', 1000, 'W'⟩ :=
  ⟨by decide, nav_inline_cvt_agrees_north _ (by decide)⟩

/- ### Claim C9 -/

/-- Degree conversion of a complex argument lies in (-180, 180]. -/
lemma arg_deg_bounds (z : ℂ) :
    -180 < z.arg * (180 / Real.pi) ∧ z.arg * (180 / Real.pi) ≤ 180 := by
  have hπ : (0:ℝ) < Real.pi := Real.pi_pos
  have hc : (0:ℝ) < 180 / Real.pi := by positivity
  have h180 : Real.pi * (180 / Real.pi) = 180 := by
    field_simp
  constructor
  · have hlt := mul_lt_mul_of_pos_right (Complex.neg_pi_lt_arg z) hc
    rw [neg_mul, h180] at hlt
    exact hlt
  · have hle := mul_le_mul_of_nonneg_right (Complex.arg_le_pi z) hc.le
    rw [h180] at hle
    exact hle

/-- Claim C9: with the exact real `atan2` (the complex argument, which like
numpy's `arctan2` takes values in (-pi, pi]), `compute_compass_heading`
always returns a heading in [0, 360), and the z component of the calibrated
vector does not affect the result. -/
theorem compass_heading_in_range (x y z z' : ℝ) :
    compute_compass_heading
        (fun b a : ℝ => Complex.arg ((a:ℂ) + (b:ℂ) * Complex.I) * (180 / Real.pi))
        (x, y, z) ∈ Set.Ico (0:ℝ) 360 ∧
    compute_compass_heading
        (fun b a : ℝ => Complex.arg ((a:ℂ) + (b:ℂ) * Complex.I) * (180 / Real.pi))
        (x, y, z) =
      compute_compass_heading
        (fun b a : ℝ => Complex.arg ((a:ℂ) + (b:ℂ) * Complex.I) * (180 / Real.pi))
        (x, y, z') := by
  refine ⟨?_, rfl⟩
  have hb := arg_deg_bounds ((x:ℂ) + (y:ℂ) * Complex.I)
  simp only [compute_compass_heading]
  rw [Set.mem_Ico]
  split_ifs with hneg <;> constructor <;> linarith [hb.1, hb.2]

/- ### Claim C7 -/

/-- The degree-valued arctangent at the scenario's difference vector
`(dx, dy) = (0, 100)`: `degrees(atan2(100, 0)) = 90`. -/
lemma arg_deg_north :
    Complex.arg ((100:ℂ) * Complex.I) * (180 / Real.pi) = 90 := by
  have hπ : Real.pi ≠ 0 := Real.pi_ne_zero
  rw [show ((100:ℂ)) = ((100:ℝ):ℂ) by norm_num,
    Complex.arg_real_mul Complex.I (by norm_num : (0:ℝ) < 100),
    Complex.arg_I]
  field_simp
  ring

/-- Claim C7: the end-to-end scenario.  Vehicle at planar (0,0) with heading
90, waypoint at (0,100): the distance is 100, the bearing is 0, the heading
error is -90; with the script's constants the rotational effort is 9 and the
forward effort 200; the heading error is below -20 so the rotational effort
goes to the right side, both sides get 100 of forward effort, and the issued
command after clamping is left 100, right 109. -/
theorem end_to_end_scenario :
    distance_to Real.sqrt (⟨0, 0⟩ : Coordinate ℝ) ⟨0, 100⟩ = 100 ∧
    target_bearing
        (fun y x : ℝ => Complex.arg ((x:ℂ) + (y:ℂ) * Complex.I) * (180 / Real.pi))
        (⟨0, 0⟩ : Coordinate ℝ) ⟨0, 100⟩ = 0 ∧
    angle_to
        (fun y x : ℝ => Complex.arg ((x:ℂ) + (y:ℂ) * Complex.I) * (180 / Real.pi))
        (⟨0, 0⟩ : Coordinate ℝ) ⟨0, 100⟩ 90 = -90 ∧
    rot_speed (0.1:ℝ) 0 (-90) = 9 ∧
    F_u (2:ℝ) 0 100 = 200 ∧
    computeThrust (0.1:ℝ) 0 2 0 20 100 (-90) = (100, 109) := by
  have hdist : distance_to Real.sqrt (⟨0, 0⟩ : Coordinate ℝ) ⟨0, 100⟩ = 100 := by
    simp only [distance_to]
    norm_num
    rw [show (10000:ℝ) = 100 ^ 2 by norm_num,
      Real.sqrt_sq (by norm_num : (0:ℝ) ≤ 100)]
  have hbearing : target_bearing
      (fun y x : ℝ => Complex.arg ((x:ℂ) + (y:ℂ) * Complex.I) * (180 / Real.pi))
      (⟨0, 0⟩ : Coordinate ℝ) ⟨0, 100⟩ = 0 := by
    simp only [target_bearing]
    norm_num [arg_deg_north]
  have herr : angle_to
      (fun y x : ℝ => Complex.arg ((x:ℂ) + (y:ℂ) * Complex.I) * (180 / Real.pi))
      (⟨0, 0⟩ : Coordinate ℝ) ⟨0, 100⟩ 90 = -90 := by
    rw [angle_to, hbearing]
    norm_num [heading_error]
  have hclip100 : npClip (100:ℝ) 50 255 = 100 := by
    unfold npClip
    rw [max_eq_left (by norm_num : (50:ℝ) ≤ 100),
      min_eq_left (by norm_num : (100:ℝ) ≤ 255)]
  have hclip109 : npClip (109:ℝ) 50 255 = 109 := by
    unfold npClip
    rw [max_eq_left (by norm_num : (50:ℝ) ≤ 109),
      min_eq_left (by norm_num : (109:ℝ) ≤ 255)]
  have htr100 : pyTrunc (100:ℝ) = 100 := by
    unfold pyTrunc
    rw [if_neg (by norm_num : ¬ (100:ℝ) < 0),
      show (100:ℝ) = ((100:ℤ):ℝ) by norm_cast, Int.floor_intCast]
  have htr109 : pyTrunc (109:ℝ) = 109 := by
    unfold pyTrunc
    rw [if_neg (by norm_num : ¬ (109:ℝ) < 0),
      show (109:ℝ) = ((109:ℤ):ℝ) by norm_cast, Int.floor_intCast]
  have hrot : rot_speed (0.1:ℝ) 0 (-90) = 9 := by
    simp only [rot_speed]
    rw [abs_of_nonpos (by norm_num : (-90:ℝ) ≤ 0)]
    norm_num
  have hfu : F_u (2:ℝ) 0 100 = 200 := by
    simp only [F_u]
    norm_num
  have hthrust : computeThrust (0.1:ℝ) 0 2 0 20 100 (-90) = (100, 109) := by
    simp only [computeThrust, rot_speed, F_u]
    rw [if_neg (by norm_num : ¬ (-90:ℝ) > 20),
      if_pos (by norm_num : (-90:ℝ) < -20),
      abs_of_nonpos (by norm_num : (-90:ℝ) ≤ 0)]
    norm_num
    constructor
    · rw [hclip100, htr100]
    · rw [hclip109, htr109]
  exact ⟨hdist, hbearing, herr, hrot, hfu, hthrust⟩

end DDBoat
